import Mathlib

/-!
Shallow embedding of the rodi dependency-injection container
(src/rodi/container.py, src/rodi/resolvers/dynamic_resolver.py,
src/rodi/resolvers/factory_resolver.py, src/rodi/resolvers/instance_resolver.py,
src/rodi/providers/*.py, src/rodi/services.py, src/rodi/resolution_context.py,
src/rodi/utils/to_standard_param_name.py).

Python machine model used throughout:
- dicts are association lists with replace-or-append insertion (`aupsert`),
  preserving lookup semantics of CPython dicts;
- Python exceptions are `Except Err`; an `assert` statement is an
  `Err.assertionError`;
- Python's bounded call stack is an explicit `fuel` argument: a call made
  with fuel 0 is the call that overflows, producing `Err.recursionError`
  (which `DynamicResolver.__call__` converts to
  `CircularDependencyException`, exactly as the source's
  `except RecursionError` does);
- object identity is an allocation counter: every constructed instance
  receives a fresh `objId`; `is`-comparison is `objId` equality;
- Python truthiness of instances is the `truthy` flag of `Value`
  (a class whose instances are falsy has `falsy = true` in its
  `ClassDef` / `TypeRef`); producer objects and classes are always truthy,
  which the embedding reflects by testing `Option.isSome` where the source
  tests such objects for truthiness.
-/

namespace Rodi

/-- Association-list lookup (model of Python `dict.get`). -/
def alookup {α β : Type} [DecidableEq α] : List (α × β) → α → Option β
  | [], _ => none
  | (k, v) :: rest, a => if k = a then some v else alookup rest a

/-- Association-list insert-or-replace (model of Python `dict[k] = v`). -/
def aupsert {α β : Type} [DecidableEq α] : List (α × β) → α → β → List (α × β)
  | [], a, b => [(a, b)]
  | (k, v) :: rest, a, b =>
    if k = a then (a, b) :: rest else (k, v) :: aupsert rest a b

theorem alookup_aupsert_self {α β : Type} [DecidableEq α]
    (l : List (α × β)) (a : α) (b : β) : alookup (aupsert l a b) a = some b := by
  induction l with
  | nil => simp [alookup, aupsert]
  | cons hd tl ih =>
    obtain ⟨k, v⟩ := hd
    by_cases h : k = a <;> simp [alookup, aupsert, h, ih]

theorem alookup_aupsert_ne {α β : Type} [DecidableEq α]
    (l : List (α × β)) (a a' : α) (b : β) (h : a ≠ a') :
    alookup (aupsert l a b) a' = alookup l a' := by
  induction l with
  | nil => simp [alookup, aupsert, h]
  | cons hd tl ih =>
    obtain ⟨k, v⟩ := hd
    by_cases hk : k = a
    · subst hk
      simp [alookup, aupsert, h]
    · by_cases hk' : k = a'
      · subst hk'
        simp [alookup, aupsert, Ne.symm h]
      · simp [alookup, aupsert, hk, hk', ih]

/-- Service lifetimes (src/rodi/service_life_style.py `ServiceLifeStyle`). -/
inductive LifeStyle where
  | TRANSIENT
  | SCOPED
  | SINGLETON
deriving DecidableEq, Repr

/-- A declared parameter type of a constructor parameter or class-level
field declaration: absent (`inspect._empty`), a reference to a class by
name, or a union/optional declaration (which rodi refuses to resolve). -/
inductive Ann where
  | empty
  | ref (t : String)
  | union
deriving DecidableEq, Repr

/-- A Python class as seen by the resolution engine: its name, whether it
declares its own `__init__` (`__init__ is not object.__init__`), the
ordered `__init__` parameters with their declared types (including
`self`), the class-level field declarations (name, declared type, whether
it is a `ClassVar`), and whether instances of the class are falsy under
the Python truth test. -/
structure ClassDef where
  name : String
  hasCustomInit : Bool
  initParams : List (String × Ann)
  classFields : List (String × Ann × Bool)
  falsy : Bool
deriving DecidableEq, Repr

/-- The part of a class a compiled producer keeps: its name and the
truthiness of its instances. -/
structure TypeRef where
  name : String
  falsy : Bool
deriving DecidableEq, Repr

/-- Reference of a class definition. -/
def ClassDef.ref (c : ClassDef) : TypeRef := ⟨c.name, c.falsy⟩

/-- A key of the compiled services map: a type (registered class) or a
string name (class-name or alias entries). -/
inductive Key where
  | typ (name : String)
  | str (name : String)
deriving DecidableEq, Repr

/-- The DI exception taxonomy (src/rodi/exceptions/*); `recursionError`
models Python's `RecursionError`, `assertionError` a failing `assert`. -/
inductive Err where
  | overridingService (key : String)
  | cannotResolveParameter (param : String) (typ : String)
  | cannotResolveType (key : Key)
  | unsupportedUnionType (param : String) (typ : String)
  | circularDependency (first : String) (current : String)
  | aliasAlreadyDefined (name : String)
  | aliasConfigurationError (name : String) (typ : String)
  | invalidOperationInStrictMode
  | missingType
  | invalidFactory
  | recursionError
  | assertionError (msg : String)
deriving DecidableEq, Repr

/-- A Python object produced by a provider: its class name, its identity
(allocation number) and its truthiness. -/
structure Value where
  typeName : String
  objId : Nat
  truthy : Bool
deriving DecidableEq, Repr

/-- ASCII uppercase test (the character class `[A-Z]` of
src/rodi/utils/to_standard_param_name.py). -/
def isUpperCh (c : Char) : Bool := 'A' ≤ c && c ≤ 'Z'

/-- ASCII lowercase test (the character class `[a-z]`). -/
def isLowerCh (c : Char) : Bool := 'a' ≤ c && c ≤ 'z'

/-- ASCII lowercase-or-digit test (the character class `[a-z0-9]`). -/
def isLowerDigitCh (c : Char) : Bool := isLowerCh c || ('0' ≤ c && c ≤ '9')

theorem dropWhile_length_le {α : Type} (p : α → Bool) (l : List α) :
    (List.dropWhile p l).length ≤ l.length := by
  induction l with
  | nil => simp [List.dropWhile]
  | cons a tl ih =>
    by_cases h : p a = true
    · simp only [List.dropWhile, h]
      exact Nat.le_succ_of_le ih
    · simp [List.dropWhile, h]

/-- Left-to-right, non-overlapping substitution of the regex
`(.)([A-Z][a-z]+)` by `\1_\2` (the `first_cap_re.sub` pass of
`to_standard_param_name`): whenever any character is followed by an
uppercase letter and at least one lowercase letter, an underscore is
inserted after that character and scanning resumes past the matched
text (the greedy lowercase run). -/
def subFirstCap : List Char → List Char
  | [] => []
  | [a] => [a]
  | a :: b :: rest =>
    if isUpperCh b && (match rest with | c :: _ => isLowerCh c | [] => false) then
      let run := rest.takeWhile (fun c => isLowerCh c)
      let rest' := rest.dropWhile (fun c => isLowerCh c)
      a :: '_' :: b :: (run ++ subFirstCap rest')
    else
      a :: subFirstCap (b :: rest)
termination_by cs => cs.length
decreasing_by
  · simp only [List.length_cons]
    have := dropWhile_length_le (fun c => isLowerCh c) rest
    omega
  · simp

/-- Left-to-right, non-overlapping substitution of the regex
`([a-z0-9])([A-Z])` by `\1_\2` (the `all_cap_re.sub` pass of
`to_standard_param_name`). -/
def subAllCap : List Char → List Char
  | [] => []
  | [a] => [a]
  | a :: b :: rest =>
    if isLowerDigitCh a && isUpperCh b then
      a :: '_' :: b :: subAllCap rest
    else
      a :: subAllCap (b :: rest)
termination_by cs => cs.length

/-- Model of src/rodi/utils/to_standard_param_name.py
`to_standard_param_name`: the two regex substitution passes, lowercasing,
and the `i_` prefix fixup. -/
def toStandardParamName (name : String) : String :=
  let v := (String.mk (subAllCap (subFirstCap name.data))).toLower
  if v.startsWith "i_" then "i" ++ v.drop 2 else v

mutual
/-- A compiled, reflection-free producer
(the classes of src/rodi/providers/*.py). Every producer carries `pid`,
its identity as a Python object, allocated from the build pass's counter:
two producer objects are the same object exactly when their `pid`s are
equal. Singleton producers' mutable memo cells (`_instance` /
`instance`) live in the runtime state, keyed by `pid`. -/
inductive Producer where
  | typeP (pid : Nat) (tr : TypeRef)
  | argsP (pid : Nat) (tr : TypeRef) (kids : List Producer)
  | scopedP (pid : Nat) (tr : TypeRef)
  | scopedArgsP (pid : Nat) (tr : TypeRef) (kids : List Producer)
  | singletonP (pid : Nat) (tr : TypeRef) (kids : List Producer)
  | instanceP (pid : Nat) (v : Value)
  | factoryP (pid : Nat) (tr : TypeRef) (f : FactorySpec)
  | scopedFactoryP (pid : Nat) (tr : TypeRef) (f : FactorySpec)
  | singletonFactoryP (pid : Nat) (tr : TypeRef) (f : FactorySpec)

/-- The factory wrapped inside a factory-style producer: the plain-class
factory of src/rodi/utils/get_plain_class_factory.py, the
set-attributes factory of src/rodi/utils/get_annotations_type_provider.py
(holding one resolver per annotated field), or a user-registered factory
callable (whose body the embedding treats as a fresh allocation of the
declared return type). -/
inductive FactorySpec where
  | plainClass
  | setFields (fields : List (String × Producer))
  | userFactory
end

/-- The object identity of a producer. -/
def Producer.pid : Producer → Nat
  | .typeP i _ => i
  | .argsP i _ _ => i
  | .scopedP i _ => i
  | .scopedArgsP i _ _ => i
  | .singletonP i _ _ => i
  | .instanceP i _ => i
  | .factoryP i _ _ => i
  | .scopedFactoryP i _ _ => i
  | .singletonFactoryP i _ _ => i

/-- The child producers of an argument-taking producer (the
`_args_callbacks` list); empty for the other shapes. -/
def Producer.kids : Producer → List Producer
  | .argsP _ _ ks => ks
  | .scopedArgsP _ _ ks => ks
  | .singletonP _ _ ks => ks
  | _ => []

/-- A registered resolver (src/rodi/container.py `_map` values):
`DynamicResolver` (a concrete class plus lifetime), `InstanceResolver`
(a pre-built instance), or `FactoryResolver` (declared return type plus
lifetime; the factory callable itself is opaque to the graph
algorithms). -/
inductive Resolver where
  | dynamic (cls : ClassDef) (ls : LifeStyle)
  | instanceR (v : Value)
  | factoryR (tr : TypeRef) (ls : LifeStyle)
deriving DecidableEq, Repr

/-- The container's registration state (src/rodi/container.py
`Container`): the key-to-resolver map (keys are the registered types,
identified by class name), the inferred alias table (name to set of
candidate types, kept as a duplicate-free list), the exact alias table,
and the strict flag. -/
structure Container where
  map : List (String × Resolver)
  aliases : List (String × List String)
  exactAliases : List (String × String)
  strict : Bool

/-- The per-build-pass state (src/rodi/resolution_context.py
`ResolutionContext`) plus the producer-identity allocator: `resolved` is
the key-to-producer memo, `chain` the `dynamic_chain` cycle-detection
stack, `counter` the next fresh producer identity. -/
structure BuildSt where
  resolved : List (String × Producer)
  chain : List String
  counter : Nat

/-- Parameter names skipped by `DynamicResolver._get_resolvers_for_parameters`
(the implicit receiver and variadic catch-alls). -/
def skipParamNames : List String := ["self", "args", "kwargs"]

/-- The `except RecursionError: raise CircularDependencyException(chain[0],
concrete_type)` wrapper of `DynamicResolver.__call__`: converts exactly a
`RecursionError` escaping the wrapped computation, and lets every other
outcome through. -/
def convertRecursionError {α : Type} (first current : String) :
    Except Err α → Except Err α
  | .error .recursionError => .error (.circularDependency first current)
  | x => x

/-- Model of `FactoryResolver.__call__`: pick the lifetime-matching factory
producer (src/rodi/resolvers/factory_resolver.py). -/
def mkFactoryProducer (ls : LifeStyle) (pid : Nat) (tr : TypeRef)
    (f : FactorySpec) : Producer :=
  match ls with
  | .SINGLETON => .singletonFactoryP pid tr f
  | .SCOPED => .scopedFactoryP pid tr f
  | .TRANSIENT => .factoryP pid tr f

/-- The zero-dependency providers of `DynamicResolver._resolve_by_init_method`
(`SingletonTypeProvider(concrete_type, None)`, `ScopedTypeProvider`,
`TypeProvider`). -/
def mkInitProviderNoArgs (ls : LifeStyle) (pid : Nat) (tr : TypeRef) : Producer :=
  match ls with
  | .SINGLETON => .singletonP pid tr []
  | .SCOPED => .scopedP pid tr
  | .TRANSIENT => .typeP pid tr

/-- The argument-taking providers of `DynamicResolver._resolve_by_init_method`
(`SingletonTypeProvider(concrete_type, fns)`, `ScopedArgsTypeProvider`,
`ArgsTypeProvider`). -/
def mkInitProviderArgs (ls : LifeStyle) (pid : Nat) (tr : TypeRef)
    (fns : List Producer) : Producer :=
  match ls with
  | .SINGLETON => .singletonP pid tr fns
  | .SCOPED => .scopedArgsP pid tr fns
  | .TRANSIENT => .argsP pid tr fns

/-- The per-parameter key resolution of
`DynamicResolver._get_resolvers_for_parameters`: union declarations fail;
an untyped parameter fails in strict mode, otherwise falls back to the
exact-alias table and then the inferred-alias table (whose entry must not
be ambiguous: the source's `assert len(aliases) == 1`); the result is the
chosen key, or `none` when the parameter type is still `_empty`. -/
def resolveParamType (c : Container) (tname pname : String) (ann : Ann) :
    Except Err (Option String) :=
  match ann with
  | .union => .error (.unsupportedUnionType pname tname)
  | .ref t => .ok (some t)
  | .empty =>
    if c.strict then .error (.cannotResolveParameter pname tname)
    else
      match alookup c.exactAliases pname with
      | some t => .ok (some t)
      | none =>
        let als := (alookup c.aliases pname).getD []
        if als.isEmpty then .ok none
        else if als.length = 1 then .ok als.head?
        else .error (.assertionError "Configured aliases cannot be ambiguous")

/-- Model of `DynamicResolver._get_resolver`, parameterized by the
resolver-invocation function `resolveFn` (the recursive descent at the
remaining stack budget): reuse the producer memoized in
`context.resolved` for the key if any, else invoke the key's registered
resolver with the same context (the result is not written back into
`resolved`; only `build_provider`'s top-level loop writes the memo). -/
def getResolverFn (c : Container)
    (resolveFn : Resolver → BuildSt → Except Err (Producer × BuildSt))
    (t : String) (st : BuildSt) : Except Err (Producer × BuildSt) :=
  match alookup st.resolved t with
  | some p => .ok (p, st)
  | none =>
    match alookup c.map t with
    | none => .error (.assertionError "resolver is not configured")
    | some reg => resolveFn reg st

/-- The parameter-walking loop of
`DynamicResolver._get_resolvers_for_parameters`: walk the parameters in
order, skipping `self`/`args`/`kwargs`; resolve each remaining parameter
to a key (`resolveParamType`); a key absent from the registry (or a
parameter type left `_empty`) fails with
`CannotResolveParameterException`; otherwise obtain the child producer
through `_get_resolver`. -/
def paramsResolvers (c : Container)
    (resolveFn : Resolver → BuildSt → Except Err (Producer × BuildSt))
    (tname : String) :
    List (String × Ann) → BuildSt → Except Err (List Producer × BuildSt)
  | [], st => .ok ([], st)
  | (pname, ann) :: rest, st =>
    if pname ∈ skipParamNames then paramsResolvers c resolveFn tname rest st
    else
      match resolveParamType c tname pname ann with
      | .error e => .error e
      | .ok none => .error (.cannotResolveParameter pname tname)
      | .ok (some t) =>
        if (alookup c.map t).isNone then
          .error (.cannotResolveParameter pname tname)
        else
          match getResolverFn c resolveFn t st with
          | .error e => .error e
          | .ok (p, st') =>
            match paramsResolvers c resolveFn tname rest st' with
            | .error e => .error e
            | .ok (ps, st'') => .ok (p :: ps, st'')

/-- Model of `DynamicResolver._resolve_by_init_method`: a constructor whose only
parameter is `self` compiles to a zero-dependency provider; otherwise the
parameters are resolved to child producers and an argument-taking
provider is emitted. -/
def resolveByInit (c : Container)
    (resolveFn : Resolver → BuildSt → Except Err (Producer × BuildSt))
    (cls : ClassDef) (ls : LifeStyle) (st : BuildSt) :
    Except Err (Producer × BuildSt) :=
  let params := cls.initParams
  if params.length = 1 && (params.headD ("", .empty)).1 == "self" then
    .ok (mkInitProviderNoArgs ls st.counter cls.ref,
      { st with counter := st.counter + 1 })
  else
    match paramsResolvers c resolveFn cls.name params st with
    | .error e => .error e
    | .ok (fns, st') =>
      .ok (mkInitProviderArgs ls st'.counter cls.ref fns,
        { st' with counter := st'.counter + 1 })

/-- Model of `DynamicResolver._resolve_by_annotations` together with
`get_annotations_type_provider`: non-`ClassVar` field declarations are
resolved like constructor parameters and wrapped in a set-attributes
factory compiled through `FactoryResolver`. -/
def resolveByFields (c : Container)
    (resolveFn : Resolver → BuildSt → Except Err (Producer × BuildSt))
    (cls : ClassDef) (ls : LifeStyle) (st : BuildSt) :
    Except Err (Producer × BuildSt) :=
  match paramsResolvers c resolveFn cls.name
      ((cls.classFields.filter (fun f => !f.2.2)).map (fun f => (f.1, f.2.1))) st with
  | .error e => .error e
  | .ok (fns, st') =>
    let fields :=
      (((cls.classFields.filter (fun f => !f.2.2)).map (fun f => f.1)).zip fns)
    .ok (mkFactoryProducer ls st'.counter cls.ref (.setFields fields),
      { st' with counter := st'.counter + 1 })

/-- Invoking a registered resolver with the resolution context
(`resolver(context)`): `InstanceResolver.__call__` wraps the instance,
`FactoryResolver.__call__` picks the lifetime factory producer, and
`DynamicResolver.__call__` pushes the concrete type on `dynamic_chain`,
compiles by `__init__` parameters or by class-level field declarations
(each recursive descent running one stack frame lower), and converts an
escaping `RecursionError` into `CircularDependencyException(chain[0],
concrete_type)`. A dynamic call at fuel 0 is the Python call that
exceeds the recursion limit. -/
def resolveResolver (c : Container) :
    Nat → Resolver → BuildSt → Except Err (Producer × BuildSt)
  | _, .instanceR v, st =>
    .ok (.instanceP st.counter v, { st with counter := st.counter + 1 })
  | _, .factoryR tr ls, st =>
    .ok (mkFactoryProducer ls st.counter tr .userFactory,
      { st with counter := st.counter + 1 })
  | 0, .dynamic _ _, _ => .error .recursionError
  | fuel + 1, .dynamic cls ls, st =>
    let st1 : BuildSt := { st with chain := st.chain ++ [cls.name] }
    let first := (st.chain ++ [cls.name]).headD ""
    if cls.hasCustomInit then
      convertRecursionError first cls.name
        (resolveByInit c (fun r s => resolveResolver c fuel r s) cls ls st1)
    else
      if cls.classFields.isEmpty then
        .ok (mkFactoryProducer ls st1.counter cls.ref .plainClass,
          { st1 with counter := st1.counter + 1 })
      else
        convertRecursionError first cls.name
          (resolveByFields c (fun r s => resolveResolver c fuel r s) cls ls st1)

/-- The fuel-indexed form of
`DynamicResolver._get_resolvers_for_parameters`. -/
def getResolversForParams (c : Container) (fuel : Nat) (tname : String)
    (params : List (String × Ann)) (st : BuildSt) :
    Except Err (List Producer × BuildSt) :=
  paramsResolvers c (fun r s => resolveResolver c fuel r s) tname params st

/-- The fuel-indexed form of `DynamicResolver._get_resolver`. -/
def getResolver (c : Container) (fuel : Nat) (t : String) (st : BuildSt) :
    Except Err (Producer × BuildSt) :=
  getResolverFn c (fun r s => resolveResolver c fuel r s) t st

/-- The compiled services map handed to `Services` by
`Container.build_provider`: keys are registered types and derived
string names, values the compiled producers. -/
abbrev ServicesMap : Type := List (Key × Producer)

/-- The top-level loop of `Container.build_provider`: iterate registry
entries in registration order; assert the key is not already in
`context.resolved`; clear `dynamic_chain` before each top-level
`DynamicResolver`; invoke the resolver; memoize the producer in
`resolved` under the key; store it in the output map under the type and,
when the class name has no dot, under the plain name as well.
`chainCleared` is the `context.dynamic_chain.clear()` step applied before
each top-level dynamic resolver. -/
def chainCleared (r : Resolver) (st : BuildSt) : BuildSt :=
  match r with
  | .dynamic _ _ => { st with chain := [] }
  | _ => st

def buildLoop (c : Container) (fuel : Nat) :
    List (String × Resolver) → ServicesMap → BuildSt →
    Except Err (ServicesMap × BuildSt)
  | [], smap, st => .ok (smap, st)
  | (k, r) :: rest, smap, st =>
    if (alookup st.resolved k).isSome then
      .error (.assertionError "map keys must be unique")
    else
      match resolveResolver c fuel r (chainCleared r st) with
      | .error e => .error e
      | .ok (p, st2) =>
        let st3 : BuildSt := { st2 with resolved := aupsert st2.resolved k p }
        let smap1 := aupsert smap (.typ k) p
        let smap2 := if k.data.contains '.' then smap1 else aupsert smap1 (.str k) p
        buildLoop c fuel rest smap2 st3

/-- The inferred-alias installation loop of `Container.build_provider`:
for each alias name, pick an (arbitrary — here the first) candidate type
from the set and map the name to that type's compiled producer, failing
with `AliasConfigurationError` when the type has no entry in the built
map. Alias sets are non-empty whenever this loop runs (every set entry
is created by an `add` in `_bind` or `add_alias`; the defaultdict lookup
in `_get_resolvers_for_parameters` creates an empty set only on a path
that then necessarily fails resolution before reaching this loop). -/
def installInferredAliases : List (String × List String) → ServicesMap →
    Except Err ServicesMap
  | [], smap => .ok smap
  | (name, ts) :: rest, smap =>
    match ts with
    | [] => installInferredAliases rest smap
    | t :: _ =>
      match alookup smap (.typ t) with
      | some p => installInferredAliases rest (aupsert smap (.str name) p)
      | none => .error (.aliasConfigurationError name t)

/-- The exact-alias installation loop of `Container.build_provider`. -/
def installExactAliases : List (String × String) → ServicesMap →
    Except Err ServicesMap
  | [], smap => .ok smap
  | (name, t) :: rest, smap =>
    match alookup smap (.typ t) with
    | some p => installExactAliases rest (aupsert smap (.str name) p)
    | none => .error (.aliasConfigurationError name t)

/-- Model of `Container.build_provider`: run the top-level compile loop with a
fresh `ResolutionContext`, then (unless strict) install inferred and
exact alias entries, and wrap the map in a `Services` provider. -/
def build (c : Container) (fuel : Nat) : Except Err ServicesMap :=
  match buildLoop c fuel c.map [] ⟨[], [], 0⟩ with
  | .error e => .error e
  | .ok (smap, _) =>
    if c.strict then .ok smap
    else
      match installInferredAliases c.aliases smap with
      | .error e => .error e
      | .ok smap2 =>
        match installExactAliases c.exactAliases smap2 with
        | .error e => .error e
        | .ok smap3 => .ok smap3

/-- The `scoped_services` cache of an `ActivationScope`
(src/rodi/services.py `ActivationScope`), keyed by type or string. -/
abbrev Scope : Type := List (Key × Value)

/-- The mutable runtime state outside any scope: the singleton producers'
memo cells (`SingletonTypeProvider._instance` /
`SingletonFactoryTypeProvider.instance`), keyed by producer identity, and
the object-identity allocator. -/
structure RtState where
  cells : List (Nat × Value)
  alloc : Nat
deriving DecidableEq, Repr

/-- Allocation of a fresh instance of a class: a new object identity;
the instance's truthiness is the class's. -/
def allocValue (tr : TypeRef) (rt : RtState) : Value × RtState :=
  (⟨tr.name, rt.alloc, !tr.falsy⟩, { rt with alloc := rt.alloc + 1 })

mutual
/-- Invocation of a compiled producer (`producer(context, parent_type)`,
src/rodi/providers/*.py). The embedding threads the activation scope's
cache and the runtime state; constructor calls allocate fresh object
identities (the constructed values' positional arguments are not
recorded on the instance, since object identity, type and truthiness are
what the providers themselves inspect). -/
def invokeProducer (p : Producer) (parent : Key) (s : Scope) (rt : RtState) :
    Value × Scope × RtState :=
  match p with
  | .typeP _ tr =>
    let (v, rt') := allocValue tr rt
    (v, s, rt')
  | .argsP _ tr kids =>
    let (_, s', rt') := invokeKids kids (.typ tr.name) s rt
    let (v, rt'') := allocValue tr rt'
    (v, s', rt'')
  | .scopedP _ tr =>
    match alookup s (.typ tr.name) with
    | some v => (v, s, rt)
    | none =>
      let (v, rt') := allocValue tr rt
      (v, aupsert s (.typ tr.name) v, rt')
  | .scopedArgsP _ tr kids =>
    match alookup s (.typ tr.name) with
    | some v => (v, s, rt)
    | none =>
      let (_, s', rt') := invokeKids kids (.typ tr.name) s rt
      let (v, rt'') := allocValue tr rt'
      (v, aupsert s' (.typ tr.name) v, rt'')
  | .singletonP pid tr kids =>
    match alookup rt.cells pid with
    | some v =>
      if v.truthy then (v, s, rt)
      else
        let (_, s', rt') := invokeKids kids (.typ tr.name) s rt
        let (v', rt'') := allocValue tr rt'
        (v', s', { rt'' with cells := aupsert rt''.cells pid v' })
    | none =>
      let (_, s', rt') := invokeKids kids (.typ tr.name) s rt
      let (v', rt'') := allocValue tr rt'
      (v', s', { rt'' with cells := aupsert rt''.cells pid v' })
  | .instanceP _ v => (v, s, rt)
  | .factoryP _ tr f => invokeFactory f tr parent s rt
  | .scopedFactoryP _ tr f =>
    match alookup s (.typ tr.name) with
    | some v => (v, s, rt)
    | none =>
      let (v, s', rt') := invokeFactory f tr parent s rt
      (v, aupsert s' (.typ tr.name) v, rt')
  | .singletonFactoryP pid tr f =>
    match alookup rt.cells pid with
    | some v => (v, s, rt)
    | none =>
      let (v, s', rt') := invokeFactory f tr parent s rt
      (v, s', { rt' with cells := aupsert rt'.cells pid v })

/-- Invocation of the `_args_callbacks` child producers in order, each
receiving the invoking producer's concrete type as `parent_type`. -/
def invokeKids (kids : List Producer) (parent : Key) (s : Scope)
    (rt : RtState) : List Value × Scope × RtState :=
  match kids with
  | [] => ([], s, rt)
  | p :: rest =>
    let (v, s', rt') := invokeProducer p parent s rt
    let (vs, s'', rt'') := invokeKids rest parent s' rt'
    (v :: vs, s'', rt'')

/-- Invocation of a wrapped factory body: the plain-class factory and the
user factory allocate a fresh instance of the handled type; the
set-attributes factory of `get_annotations_type_provider` allocates the
instance first, then runs each field's resolver (passing the original
`parent_type` through, as the source closure does). -/
def invokeFactory (f : FactorySpec) (tr : TypeRef) (parent : Key)
    (s : Scope) (rt : RtState) : Value × Scope × RtState :=
  match f with
  | .plainClass =>
    let (v, rt') := allocValue tr rt
    (v, s, rt')
  | .userFactory =>
    let (v, rt') := allocValue tr rt
    (v, s, rt')
  | .setFields fields =>
    let (v, rt') := allocValue tr rt
    let (s', rt'') := invokeFields fields parent s rt'
    (v, s', rt'')

/-- Invocation of the per-field resolvers of a set-attributes factory. -/
def invokeFields (fields : List (String × Producer)) (parent : Key)
    (s : Scope) (rt : RtState) : Scope × RtState :=
  match fields with
  | [] => (s, rt)
  | (_, p) :: rest =>
    let (_, s', rt') := invokeProducer p parent s rt
    invokeFields rest parent s' rt'
end

/-- Model of `Services.get` (src/rodi/services.py lines 111-136): default to a
fresh one-shot `ActivationScope` when none is given; look up the
compiled producer and the scope's cached value; when neither the
producer exists nor the cached value is truthy, return the caller's
default if one was supplied and raise `CannotResolveTypeException`
otherwise; then return the cached value when truthy (`scoped_service or
resolver(scope, desired_type)`), else invoke the producer with the
requested key as `parent_type`. -/
def servicesGet (m : ServicesMap) (k : Key) (sc : Option Scope)
    (default : Option Value) (rt : RtState) :
    Except Err (Value × Scope × RtState) :=
  let scope := sc.getD []
  match alookup scope k, alookup m k with
  | some v, some p =>
    if v.truthy then .ok (v, scope, rt) else .ok (invokeProducer p k scope rt)
  | some v, none =>
    if v.truthy then .ok (v, scope, rt)
    else
      match default with
      | some d => .ok (d, scope, rt)
      | none => .error (.cannotResolveType k)
  | none, some p => .ok (invokeProducer p k scope rt)
  | none, none =>
    match default with
    | some d => .ok (d, scope, rt)
    | none => .error (.cannotResolveType k)

/-- Adding a type to an inferred-alias set (`self._aliases[name].add(t)`
on the defaultdict of sets; sets are kept as duplicate-free lists). -/
def addAliasMember (tbl : List (String × List String)) (name t : String) :
    List (String × List String) :=
  let cur := (alookup tbl name).getD []
  aupsert tbl name (if t ∈ cur then cur else cur ++ [t])

/-- Model of `Container._bind`: fail with `OverridingServiceException` when the
key is already registered (before any mutation); otherwise append the
registration and — unless the container is strict or the class name is
dotted — index the key in the inferred-alias table under its name, its
lowercase name and its snake_case name. Keys are identified with their
class names (`class_name(key)`). -/
def bind (c : Container) (k : String) (r : Resolver) : Except Err Container :=
  if (alookup c.map k).isSome then .error (.overridingService k)
  else
    let m := c.map ++ [(k, r)]
    if c.strict || k.data.contains '.' then .ok { c with map := m }
    else
      .ok { c with
        map := m
        aliases :=
          addAliasMember
            (addAliasMember (addAliasMember c.aliases k k) k.toLower k)
            (toStandardParamName k) k }

/-- Model of `Container.add_alias`: refused outright in strict mode; fails when
the name is already an inferred or exact alias; otherwise adds the type
to the name's inferred-alias set. -/
def addAlias (c : Container) (name t : String) : Except Err Container :=
  if c.strict then .error .invalidOperationInStrictMode
  else if (alookup c.aliases name).isSome ∨ (alookup c.exactAliases name).isSome
  then .error (.aliasAlreadyDefined name)
  else .ok { c with aliases := addAliasMember c.aliases name t }

/-- Model of `Container.set_alias`: refused outright in strict mode; without
`override`, fails when the name already has an exact alias; otherwise
stores the exact alias. -/
def setAlias (c : Container) (name t : String) (override : Bool) :
    Except Err Container :=
  if c.strict then .error .invalidOperationInStrictMode
  else if !override && (alookup c.exactAliases name).isSome then
    .error (.aliasAlreadyDefined name)
  else .ok { c with exactAliases := aupsert c.exactAliases name t }

/-- Model of `Container.register_factory` together with `Container._check_factory`:
a non-callable factory is an `InvalidFactory`; with no explicit return
type the factory's own return annotation is used, and
`MissingTypeException` is raised when there is none; the factory's
declared parameter count selects the wrapped calling convention, with
more than 2 parameters an `InvalidFactory`; only then is the
`FactoryResolver` bound under the return type (both checks run before
`_bind`, so a failing registration adds nothing). The truthiness of
factory-produced instances plays no role here, so the bound `TypeRef`
records non-falsy. -/
def registerFactory (c : Container) (isCallable : Bool) (numParams : Nat)
    (retAnn retType : Option String) (ls : LifeStyle) : Except Err Container :=
  if !isCallable then .error .invalidFactory
  else
    match (match retType with | some t => some t | none => retAnn) with
    | none => .error .missingType
    | some rt =>
      if 3 ≤ numParams then .error .invalidFactory
      else bind c rt (.factoryR ⟨rt, false⟩ ls)

/-- The object identity of the constructed instance's class name, for
stating which key a compiled producer produces. -/
def Producer.ptype : Producer → String
  | .typeP _ tr => tr.name
  | .argsP _ tr _ => tr.name
  | .scopedP _ tr => tr.name
  | .scopedArgsP _ tr _ => tr.name
  | .singletonP _ tr _ => tr.name
  | .instanceP _ v => v.typeName
  | .factoryP _ tr _ => tr.name
  | .scopedFactoryP _ tr _ => tr.name
  | .singletonFactoryP _ tr _ => tr.name

/-- A class with no dependencies (`__init__(self)`), non-falsy. -/
def memoClsP : ClassDef := ⟨"P", true, [("self", .empty)], [], false⟩

/-- A class whose `__init__(self, p: P)` depends on `memoClsP`. -/
def memoClsR : ClassDef :=
  ⟨"R", true, [("self", .empty), ("p", .ref "P")], [], false⟩

/-- Registry with the dependency `P` registered before its dependent `R`. -/
def memoGoodCont (lsP lsR : LifeStyle) : Container :=
  ⟨[("P", .dynamic memoClsP lsP), ("R", .dynamic memoClsR lsR)], [], [], false⟩

/-- Registry with the dependent `R` registered before its singleton
dependency `P`. -/
def memoBadCont : Container :=
  ⟨[("R", .dynamic memoClsR .TRANSIENT), ("P", .dynamic memoClsP .SINGLETON)],
    [], [], false⟩

/-- A dependency-free singleton class whose instances are falsy under the
Python truth test (for example a class defining `__bool__` or `__len__`
returning a false value). -/
def falsyCls : ClassDef := ⟨"F", true, [("self", .empty)], [], true⟩

/-- Registry holding only the falsy singleton class. -/
def falsyCont : Container := ⟨[("F", .dynamic falsyCls .SINGLETON)], [], [], false⟩

/-- A dependency-free singleton class with truthy instances. -/
def truthySngCls : ClassDef := ⟨"T", true, [("self", .empty)], [], false⟩

/-- Registry holding only the truthy singleton class. -/
def truthySngCont : Container :=
  ⟨[("T", .dynamic truthySngCls .SINGLETON)], [], [], false⟩

/-- The provider map `build truthySngCont` produces: the singleton
producer under the type key and the plain class name. -/
def truthySngMap : ServicesMap :=
  [(.typ "T", .singletonP 0 ⟨"T", false⟩ []), (.str "T", .singletonP 0 ⟨"T", false⟩ [])]

/-- A dependency-free scoped class. -/
def scpCls : ClassDef := ⟨"S", true, [("self", .empty)], [], false⟩

/-- Registry holding only the scoped class. -/
def scpCont : Container := ⟨[("S", .dynamic scpCls .SCOPED)], [], [], false⟩

/-- The provider map `build scpCont` produces. -/
def scpMap : ServicesMap :=
  [(.typ "S", .scopedP 0 ⟨"S", false⟩), (.str "S", .scopedP 0 ⟨"S", false⟩)]

/-- Class `A` of the two-type cycle: `__init__(self, b: B)`. -/
def cycClsA : ClassDef :=
  ⟨"A", true, [("self", .empty), ("b", .ref "B")], [], false⟩

/-- Class `B` of the two-type cycle: `__init__(self, a: A)`. -/
def cycClsB : ClassDef :=
  ⟨"B", true, [("self", .empty), ("a", .ref "A")], [], false⟩

/-- Registry with the mutually dependent dynamic registrations `A` and
`B` (with arbitrary lifetimes). -/
def cycCont (lsA lsB : LifeStyle) : Container :=
  ⟨[("A", .dynamic cycClsA lsA), ("B", .dynamic cycClsB lsB)], [], [], false⟩

/-- Class `B` of the three-type cycle: `__init__(self, c: C)`. -/
def cyc3ClsB : ClassDef :=
  ⟨"B", true, [("self", .empty), ("c", .ref "C")], [], false⟩

/-- Class `C` of the three-type cycle: `__init__(self, a: A)`. -/
def cyc3ClsC : ClassDef :=
  ⟨"C", true, [("self", .empty), ("a", .ref "A")], [], false⟩

/-- Registry with the transitively cyclic dynamic registrations
`A -> B -> C -> A` (with arbitrary lifetimes); class `A` is `cycClsA`,
whose constructor requires `B`. -/
def cyc3Cont (lsA lsB lsC : LifeStyle) : Container :=
  ⟨[("A", .dynamic cycClsA lsA), ("B", .dynamic cyc3ClsB lsB),
    ("C", .dynamic cyc3ClsC lsC)], [], [], false⟩

/-! ### Claim theorems -/

/-- C5: for every key `k` already present in the registry, a second bind
of `k` raises `OverridingServiceException` and leaves the registry
unchanged — `Container._bind` raises before any mutation, which the
functional embedding renders by returning the error with no successor
container state, so the caller's container (map, alias tables and all)
is exactly as before the failed call. -/
theorem bind_duplicate_key_rejected (c : Container) (k : String)
    (r r' : Resolver) (h : alookup c.map k = some r') :
    bind c k r = .error (.overridingService k) := by
  simp [bind, h]

/-- Witness for C5: a concrete container with `A` bound; binding `A`
again fails with `OverridingServiceException`. -/
theorem bind_duplicate_key_rejected_witness :
    alookup (Container.mk [("A", .instanceR ⟨"A", 0, true⟩)] [] [] false).map "A"
        = some (.instanceR ⟨"A", 0, true⟩) ∧
    bind (Container.mk [("A", .instanceR ⟨"A", 0, true⟩)] [] [] false) "A"
        (.instanceR ⟨"A", 1, true⟩) = .error (.overridingService "A") :=
  ⟨rfl, bind_duplicate_key_rejected _ "A" _ _ rfl⟩

/-- C9: `register_factory` validates at registration time: with no
explicit return type and no declared return annotation it raises
`MissingTypeException`; a factory declaring more than 2 parameters
raises `InvalidFactory` (whether the return type was explicit or
inferred from the annotation); both checks run before `_bind`, so a
failing call adds no binding (rendered here by the error carrying no
successor container). -/
theorem register_factory_validation :
    (∀ (c : Container) (n : Nat) (ls : LifeStyle),
      registerFactory c true n none none ls = .error .missingType) ∧
    (∀ (c : Container) (n : Nat) (t : String) (ls : LifeStyle), 3 ≤ n →
      registerFactory c true n none (some t) ls = .error .invalidFactory) ∧
    (∀ (c : Container) (n : Nat) (a : String) (ls : LifeStyle), 3 ≤ n →
      registerFactory c true n (some a) none ls = .error .invalidFactory) := by
  refine ⟨?_, ?_, ?_⟩
  · intro c n ls
    simp [registerFactory]
  · intro c n t ls h
    simp [registerFactory, h]
  · intro c n a ls h
    simp [registerFactory, h]

/-- Witness for C9: a no-annotation factory with no explicit return type
is rejected with `MissingTypeException`; 3-parameter factories are
rejected with `InvalidFactory` in both return-type configurations. -/
theorem register_factory_validation_witness :
    registerFactory (Container.mk [] [] [] false) true 0 none none .TRANSIENT
        = .error .missingType ∧
    (3 ≤ 3 ∧
      registerFactory (Container.mk [] [] [] false) true 3 none (some "T") .SCOPED
        = .error .invalidFactory) ∧
    (3 ≤ 4 ∧
      registerFactory (Container.mk [] [] [] false) true 4 (some "T") none .SINGLETON
        = .error .invalidFactory) :=
  ⟨register_factory_validation.1 _ 0 .TRANSIENT,
    ⟨by decide, register_factory_validation.2.1 _ 3 "T" .SCOPED (by decide)⟩,
    ⟨by decide, register_factory_validation.2.2 _ 4 "T" .SINGLETON (by decide)⟩⟩

/-- C8: for a built provider, `get` on a key with no compiled producer
(and no truthy value seeded in the scope's cache — `get(k)` without a
scope always starts from an empty one-shot scope) returns the
caller-supplied default when one was given and raises
`CannotResolveTypeException` otherwise; and `get` can fail with no other
error: every compiled producer is a total dispatch-table entry, so no
graph-shape error (missing dependency, cycle, union type, alias
misconfiguration) can escape `get` after a successful build. -/
theorem get_unknown_key_default_or_error :
    (∀ (m : ServicesMap) (k : Key) (sc : Option Scope) (d : Value) (rt : RtState),
      alookup m k = none → alookup (sc.getD []) k = none →
      servicesGet m k sc (some d) rt = .ok (d, sc.getD [], rt)) ∧
    (∀ (m : ServicesMap) (k : Key) (sc : Option Scope) (rt : RtState),
      alookup m k = none → alookup (sc.getD []) k = none →
      servicesGet m k sc none rt = .error (.cannotResolveType k)) ∧
    (∀ (m : ServicesMap) (k : Key) (sc : Option Scope) (d : Option Value)
       (rt : RtState) (e : Err),
      servicesGet m k sc d rt = .error e → e = .cannotResolveType k) := by
  refine ⟨?_, ?_, ?_⟩
  · intro m k sc d rt hm hs
    simp [servicesGet, hm, hs]
  · intro m k sc rt hm hs
    simp [servicesGet, hm, hs]
  · intro m k sc d rt e h
    unfold servicesGet at h
    cases hs : alookup (sc.getD []) k <;> cases hm : alookup m k <;>
        simp [hs, hm] at h
    all_goals try split at h
    all_goals try cases d
    all_goals simp_all

/-- Witness for C8: getting an unregistered key from an empty provider
returns the given default, and errors with `CannotResolveTypeException`
without one. -/
theorem get_unknown_key_default_or_error_witness :
    servicesGet [] (.typ "X") none (some ⟨"D", 7, true⟩) ⟨[], 0⟩
        = .ok (⟨"D", 7, true⟩, [], ⟨[], 0⟩) ∧
    servicesGet [] (.typ "X") none none ⟨[], 0⟩
        = .error (.cannotResolveType (.typ "X")) :=
  ⟨get_unknown_key_default_or_error.1 [] (.typ "X") none ⟨"D", 7, true⟩ ⟨[], 0⟩ rfl rfl,
    get_unknown_key_default_or_error.2.1 [] (.typ "X") none ⟨[], 0⟩ rfl rfl⟩

/-- C10: `Services.get` consults the scope's `scoped_services` cache
before the producer map: a truthy cached value is returned as-is —
without invoking any producer and without `CannotResolveTypeException`,
even for a never-registered key — while a falsy cached value is treated
as absent and the registered producer, if any, is invoked instead. -/
theorem get_scoped_cache_precedence :
    (∀ (m : ServicesMap) (k : Key) (s : Scope) (d : Option Value)
       (rt : RtState) (v : Value),
      alookup s k = some v → v.truthy = true →
      servicesGet m k (some s) d rt = .ok (v, s, rt)) ∧
    (∀ (m : ServicesMap) (k : Key) (s : Scope) (d : Option Value)
       (rt : RtState) (v : Value) (p : Producer),
      alookup s k = some v → v.truthy = false → alookup m k = some p →
      servicesGet m k (some s) d rt = .ok (invokeProducer p k s rt)) := by
  constructor
  · intro m k s d rt v hs hv
    cases hm : alookup m k <;> simp [servicesGet, hs, hm, hv]
  · intro m k s d rt v p hs hv hm
    simp [servicesGet, hs, hm, hv]

/-- Witness for C10: a scope seeded with a truthy value for an
unregistered key returns the seeded value from an empty provider; a
seeded falsy value is ignored in favor of the registered producer. -/
theorem get_scoped_cache_precedence_witness :
    servicesGet [] (.typ "X") (some [(.typ "X", ⟨"X", 5, true⟩)]) none ⟨[], 0⟩
        = .ok (⟨"X", 5, true⟩, [(.typ "X", ⟨"X", 5, true⟩)], ⟨[], 0⟩) ∧
    servicesGet [(.typ "Y", .typeP 0 ⟨"Y", false⟩)] (.typ "Y")
        (some [(.typ "Y", ⟨"Y", 5, false⟩)]) none ⟨[], 0⟩
        = .ok (invokeProducer (.typeP 0 ⟨"Y", false⟩) (.typ "Y")
            [(.typ "Y", ⟨"Y", 5, false⟩)] ⟨[], 0⟩) :=
  ⟨get_scoped_cache_precedence.1 [] (.typ "X") [(.typ "X", ⟨"X", 5, true⟩)]
      none ⟨[], 0⟩ ⟨"X", 5, true⟩ rfl rfl,
    get_scoped_cache_precedence.2 [(.typ "Y", .typeP 0 ⟨"Y", false⟩)] (.typ "Y")
      [(.typ "Y", ⟨"Y", 5, false⟩)] none ⟨[], 0⟩ ⟨"Y", 5, false⟩
      (.typeP 0 ⟨"Y", false⟩) rfl rfl rfl⟩

/-- C2 counterexample: the claim "every get(T) call returns the identical
instance produced by the first call, for every Singleton type T" is
false at a concrete input: `SingletonTypeProvider.__call__` guards its
memo with `if not self._instance`, so a singleton class whose instances
are falsy (here `falsyCls`) is re-constructed by the second `get`: the
two calls return objects with distinct identities. -/
theorem singleton_once_cex :
    ∃ (m : ServicesMap) (v1 : Value) (s1 : Scope) (rt1 : RtState) (v2 : Value)
      (s2 : Scope) (rt2 : RtState),
      build falsyCont 10 = .ok m ∧
      servicesGet m (.typ "F") none none ⟨[], 0⟩ = .ok (v1, s1, rt1) ∧
      servicesGet m (.typ "F") none none rt1 = .ok (v2, s2, rt2) ∧
      v1.typeName = "F" ∧ v2.typeName = "F" ∧
      v1.objId = 0 ∧ v2.objId = 1 ∧ v1.objId ≠ v2.objId :=
  ⟨_, _, _, _, _, _, _, rfl, rfl, rfl, rfl, rfl, rfl, rfl, by decide⟩

/-- C2 amended: for a type `T` registered with Singleton lifetime whose
instances are truthy, the compiled singleton producer invokes the
constructor at most once per Service Provider: the first `get(T)`
constructs the instance (one fresh allocation, memoized in the
producer's cell), and every later `get(T)` — through any scope not
seeding `T`, or with no scope — returns the identical instance with no
further construction and no state change; a fresh provider state
(rebuilding) starts with an empty cell and constructs anew. -/
theorem singleton_once_amended :
    build truthySngCont 10 = .ok truthySngMap ∧
    (∀ (s1 s2 : Scope) (rt : RtState),
      alookup s1 (.typ "T") = none → alookup s2 (.typ "T") = none →
      alookup rt.cells 0 = none →
      ∃ (v : Value) (rt' : RtState),
        servicesGet truthySngMap (.typ "T") (some s1) none rt = .ok (v, s1, rt') ∧
        v.objId = rt.alloc ∧ v.truthy = true ∧
        rt' = ⟨aupsert rt.cells 0 v, rt.alloc + 1⟩ ∧
        servicesGet truthySngMap (.typ "T") (some s2) none rt' = .ok (v, s2, rt') ∧
        servicesGet truthySngMap (.typ "T") none none rt' = .ok (v, [], rt')) := by
  constructor
  · rfl
  · intro s1 s2 rt h1 h2 hc
    refine ⟨⟨"T", rt.alloc, true⟩, ⟨aupsert rt.cells 0 ⟨"T", rt.alloc, true⟩, rt.alloc + 1⟩,
      ?_, rfl, rfl, rfl, ?_, ?_⟩
    · simp [servicesGet, truthySngMap, alookup, h1, invokeProducer, invokeKids,
        allocValue, hc]
    · simp [servicesGet, truthySngMap, alookup, h2, invokeProducer, invokeKids,
        allocValue, alookup_aupsert_self]
    · simp [servicesGet, truthySngMap, alookup, invokeProducer, invokeKids,
        allocValue, alookup_aupsert_self]

/-- Witness for C2's amended theorem: instantiated at empty scopes and
the pristine runtime state. -/
theorem singleton_once_amended_witness :
    ∃ (v : Value) (rt' : RtState),
      servicesGet truthySngMap (.typ "T") (some []) none ⟨[], 0⟩ = .ok (v, [], rt') ∧
      v.objId = 0 ∧ v.truthy = true ∧
      rt' = ⟨aupsert [] 0 v, 1⟩ ∧
      servicesGet truthySngMap (.typ "T") (some []) none rt' = .ok (v, [], rt') ∧
      servicesGet truthySngMap (.typ "T") none none rt' = .ok (v, [], rt') := by
  have h := singleton_once_amended.2 [] [] ⟨[], 0⟩ rfl rfl rfl
  exact h

/-- C6: for a type `S` registered with Scoped lifetime: two `get(S,
scope)` calls passing the same ActivationScope return the identical
instance (whatever the scope's initial cache contents); two `get(S)`
calls with no scope each create a fresh one-shot scope and return
distinct instances; and `get(S, s1)` / `get(S, s2)` with two different
(unseeded) scopes return distinct instances. -/
theorem scoped_lifetime_sharing :
    build scpCont 10 = .ok scpMap ∧
    (∀ (s : Scope) (rt : RtState),
      ∃ (v : Value) (s' : Scope) (rt' : RtState),
        servicesGet scpMap (.typ "S") (some s) none rt = .ok (v, s', rt') ∧
        servicesGet scpMap (.typ "S") (some s') none rt' = .ok (v, s', rt')) ∧
    (∀ rt : RtState,
      ∃ (v1 : Value) (s1 : Scope) (rt1 : RtState) (v2 : Value) (s2 : Scope)
        (rt2 : RtState),
        servicesGet scpMap (.typ "S") none none rt = .ok (v1, s1, rt1) ∧
        servicesGet scpMap (.typ "S") none none rt1 = .ok (v2, s2, rt2) ∧
        v1.objId ≠ v2.objId) ∧
    (∀ (s1 s2 : Scope) (rt : RtState),
      alookup s1 (.typ "S") = none → alookup s2 (.typ "S") = none →
      ∃ (v1 : Value) (s1' : Scope) (rt1 : RtState) (v2 : Value) (s2' : Scope)
        (rt2 : RtState),
        servicesGet scpMap (.typ "S") (some s1) none rt = .ok (v1, s1', rt1) ∧
        servicesGet scpMap (.typ "S") (some s2) none rt1 = .ok (v2, s2', rt2) ∧
        v1.objId ≠ v2.objId) := by
  refine ⟨rfl, ?_, ?_, ?_⟩
  · intro s rt
    cases hs : alookup s (.typ "S") with
    | some v =>
      by_cases hv : v.truthy = true
      · exact ⟨v, s, rt, by simp [servicesGet, scpMap, alookup, hs, hv],
          by simp [servicesGet, scpMap, alookup, hs, hv]⟩
      · refine ⟨v, s, rt, ?_, ?_⟩ <;>
          simp [servicesGet, scpMap, alookup, hs, hv, invokeProducer]
    | none =>
      refine ⟨⟨"S", rt.alloc, true⟩, aupsert s (.typ "S") ⟨"S", rt.alloc, true⟩,
        { rt with alloc := rt.alloc + 1 }, ?_, ?_⟩
      · simp [servicesGet, scpMap, alookup, hs, invokeProducer, allocValue]
      · simp [servicesGet, scpMap, alookup, alookup_aupsert_self, invokeProducer,
          allocValue]
  · intro rt
    refine ⟨⟨"S", rt.alloc, true⟩,
      aupsert [] (.typ "S") ⟨"S", rt.alloc, true⟩, { rt with alloc := rt.alloc + 1 },
      ⟨"S", rt.alloc + 1, true⟩,
      aupsert [] (.typ "S") ⟨"S", rt.alloc + 1, true⟩,
      { rt with alloc := rt.alloc + 2 }, ?_, ?_, ?_⟩
    · simp [servicesGet, scpMap, alookup, invokeProducer, allocValue]
    · simp [servicesGet, scpMap, alookup, invokeProducer, allocValue]
    · simp
  · intro s1 s2 rt h1 h2
    refine ⟨⟨"S", rt.alloc, true⟩,
      aupsert s1 (.typ "S") ⟨"S", rt.alloc, true⟩, { rt with alloc := rt.alloc + 1 },
      ⟨"S", rt.alloc + 1, true⟩,
      aupsert s2 (.typ "S") ⟨"S", rt.alloc + 1, true⟩,
      { rt with alloc := rt.alloc + 2 }, ?_, ?_, ?_⟩
    · simp [servicesGet, scpMap, alookup, h1, invokeProducer, allocValue]
    · simp [servicesGet, scpMap, alookup, h2, invokeProducer, allocValue]
    · simp

/-- Witness for C6: instantiated at a seeded scope, the empty scopes and
the pristine runtime state. -/
theorem scoped_lifetime_sharing_witness :
    (∃ (v : Value) (s' : Scope) (rt' : RtState),
      servicesGet scpMap (.typ "S") (some [(.typ "S", ⟨"S", 9, true⟩)]) none ⟨[], 0⟩
          = .ok (v, s', rt') ∧
      servicesGet scpMap (.typ "S") (some s') none rt' = .ok (v, s', rt')) ∧
    (∃ (v1 : Value) (s1' : Scope) (rt1 : RtState) (v2 : Value) (s2' : Scope)
      (rt2 : RtState),
      servicesGet scpMap (.typ "S") (some []) none ⟨[], 0⟩ = .ok (v1, s1', rt1) ∧
      servicesGet scpMap (.typ "S") (some []) none rt1 = .ok (v2, s2', rt2) ∧
      v1.objId ≠ v2.objId) :=
  ⟨scoped_lifetime_sharing.2.1 [(.typ "S", ⟨"S", 9, true⟩)] ⟨[], 0⟩,
    scoped_lifetime_sharing.2.2.2 [] [] ⟨[], 0⟩ rfl rfl⟩

/-- C1 counterexample: the claim "every registered key compiles to
exactly one Producer instance, in any registration order" is false at a
concrete input. With the dependent `R` registered before its singleton
dependency `P`, compiling `R` compiles a producer for `P` through
`_get_resolver` without memoizing it (`context.resolved` is only written
by `build_provider`'s top-level loop), and `P`'s own registry turn then
compiles a second, distinct producer: the provider ends up with two
singleton producers for key `P` (producer identities 0 and 2), and at
runtime `get(R)` followed by `get(P)` instantiates the singleton class
`P` twice (two cells holding `P` instances with distinct object
identities 0 and 2). -/
theorem producer_memo_reuse_cex :
    ∃ (m : ServicesMap) (pR pP : Producer) (v1 : Value) (s1 : Scope)
      (rt1 : RtState) (v2 : Value) (s2 : Scope) (rt2 : RtState),
      build memoBadCont 10 = .ok m ∧
      alookup m (.typ "R") = some pR ∧ alookup m (.typ "P") = some pP ∧
      pR.kids.map Producer.ptype = ["P"] ∧ pP.ptype = "P" ∧
      pR.kids.map Producer.pid = [0] ∧ pP.pid = 2 ∧
      servicesGet m (.typ "R") none none ⟨[], 0⟩ = .ok (v1, s1, rt1) ∧
      servicesGet m (.typ "P") none none rt1 = .ok (v2, s2, rt2) ∧
      rt2.cells.map (fun e => (e.2.typeName, e.2.objId)) = [("P", 0), ("P", 2)] :=
  ⟨_, _, _, _, _, _, _, _, _, rfl, rfl, rfl, rfl, rfl, rfl, rfl, rfl, rfl, rfl⟩

/-- C1 amended: during one build pass, a key that has already been
compiled as an earlier top-level registry entry is reused through the
resolution context's `resolved` memo, so every later reference to it —
as a dependency of any dependent — yields the identical Producer object;
a key first reached as a dependency of an earlier-registered dependent,
however, is compiled again when its own registry turn comes, so such a
key yields two distinct Producers within one Service Provider (see the
counterexample). Here, with the dependency `P` registered before the
dependent `R` (for every combination of lifetimes), the producer
embedded in `R`'s compiled producer is the very producer mapped for `P`. -/
theorem producer_memo_reuse_amended (lsP lsR : LifeStyle) :
    ∃ (m : ServicesMap) (pP pR : Producer),
      build (memoGoodCont lsP lsR) 10 = .ok m ∧
      alookup m (.typ "P") = some pP ∧ alookup m (.typ "R") = some pR ∧
      pR.kids = [pP] := by
  cases lsP <;> cases lsR <;> exact ⟨_, _, _, rfl, rfl, rfl, rfl⟩

theorem convertRecursionError_on_error {α : Type} (a b : String) (e : Err) :
    ∃ e', convertRecursionError (α := α) a b (.error e) = .error e' := by
  cases e <;> exact ⟨_, rfl⟩

theorem buildLoop_error_of_mem (c : Container) (fuel : Nat) (k : String)
    (r : Resolver)
    (hr : ∀ st : BuildSt, ∃ e, resolveResolver c fuel r st = .error e) :
    ∀ (entries : List (String × Resolver)) (smap : ServicesMap) (st : BuildSt),
      (k, r) ∈ entries → ∃ e, buildLoop c fuel entries smap st = .error e := by
  intro entries
  induction entries with
  | nil => intro smap st h; simp at h
  | cons hd tl ih =>
    intro smap st hmem
    obtain ⟨k', r'⟩ := hd
    by_cases ha : (alookup st.resolved k').isSome
    · refine ⟨.assertionError "map keys must be unique", ?_⟩
      simp [buildLoop, ha]
    · rcases List.mem_cons.mp hmem with heq | htl
      · injection heq with h1 h2
        subst h1
        subst h2
        obtain ⟨e, he⟩ := hr (chainCleared r st)
        exact ⟨e, by simp [buildLoop, ha, he]⟩
      · cases hres : resolveResolver c fuel r' (chainCleared r' st) with
        | error e => exact ⟨e, by simp [buildLoop, ha, hres]⟩
        | ok pr =>
          obtain ⟨p, st2⟩ := pr
          simp only [buildLoop, ha, if_false, hres]
          exact ih _ _ htl

theorem build_error_of_mem (c : Container) (fuel : Nat) (k : String)
    (r : Resolver) (hmem : (k, r) ∈ c.map)
    (hr : ∀ st : BuildSt, ∃ e, resolveResolver c fuel r st = .error e) :
    ∃ e, build c fuel = .error e := by
  obtain ⟨e, he⟩ := buildLoop_error_of_mem c fuel k r hr c.map [] ⟨[], [], 0⟩ hmem
  exact ⟨e, by simp [build, he]⟩

theorem paramsResolvers_strict_untyped_error (c : Container)
    (hstrict : c.strict = true) (tname pn : String)
    (hskip : pn ∉ skipParamNames)
    (resolveFn : Resolver → BuildSt → Except Err (Producer × BuildSt)) :
    ∀ (params : List (String × Ann)) (st : BuildSt),
      (pn, Ann.empty) ∈ params →
      ∃ e, paramsResolvers c resolveFn tname params st = .error e := by
  intro params
  induction params with
  | nil => intro st h; simp at h
  | cons hd tl ih =>
    intro st hmem
    obtain ⟨q, ann⟩ := hd
    by_cases hq : q ∈ skipParamNames
    · have htl : (pn, Ann.empty) ∈ tl := by
        rcases List.mem_cons.mp hmem with heq | h
        · injection heq with h1 h2
          exact absurd (h1 ▸ hq) hskip
        · exact h
      obtain ⟨e, he⟩ := ih st htl
      exact ⟨e, by simp [paramsResolvers, hq, he]⟩
    · rcases List.mem_cons.mp hmem with heq | htl
      · injection heq with h1 h2
        subst h1
        subst h2
        exact ⟨.cannotResolveParameter pn tname,
          by simp [paramsResolvers, hq, resolveParamType, hstrict]⟩
      · cases hpt : resolveParamType c tname q ann with
        | error e => exact ⟨e, by simp [paramsResolvers, hq, hpt]⟩
        | ok opt =>
          cases opt with
          | none =>
            exact ⟨.cannotResolveParameter q tname,
              by simp [paramsResolvers, hq, hpt]⟩
          | some t =>
            by_cases hmap : (alookup c.map t).isNone
            · exact ⟨.cannotResolveParameter q tname,
                by simp [paramsResolvers, hq, hpt, hmap]⟩
            · cases hgr : getResolverFn c resolveFn t st with
              | error e => exact ⟨e, by simp [paramsResolvers, hq, hpt, hmap, hgr]⟩
              | ok pr =>
                obtain ⟨p, st'⟩ := pr
                obtain ⟨e, he⟩ := ih st' htl
                exact ⟨e, by simp [paramsResolvers, hq, hpt, hmap, hgr, he]⟩

theorem paramsResolvers_ambiguous_alias_error (c : Container)
    (hstrict : c.strict = false) (tname pn : String)
    (hskip : pn ∉ skipParamNames)
    (hex : alookup c.exactAliases pn = none)
    (hal : 2 ≤ ((alookup c.aliases pn).getD []).length)
    (resolveFn : Resolver → BuildSt → Except Err (Producer × BuildSt)) :
    ∀ (params : List (String × Ann)) (st : BuildSt),
      (pn, Ann.empty) ∈ params →
      ∃ e, paramsResolvers c resolveFn tname params st = .error e := by
  intro params
  induction params with
  | nil => intro st h; simp at h
  | cons hd tl ih =>
    intro st hmem
    obtain ⟨q, ann⟩ := hd
    by_cases hq : q ∈ skipParamNames
    · have htl : (pn, Ann.empty) ∈ tl := by
        rcases List.mem_cons.mp hmem with heq | h
        · injection heq with h1 h2
          exact absurd (h1 ▸ hq) hskip
        · exact h
      obtain ⟨e, he⟩ := ih st htl
      exact ⟨e, by simp [paramsResolvers, hq, he]⟩
    · rcases List.mem_cons.mp hmem with heq | htl
      · injection heq with h1 h2
        subst h1
        subst h2
        refine ⟨.assertionError "Configured aliases cannot be ambiguous", ?_⟩
        have hni : ((alookup c.aliases pn).getD []).isEmpty = false := by
          cases hl : (alookup c.aliases pn).getD [] with
          | nil => rw [hl] at hal; simp at hal
          | cons a as => simp
        have hlen : ¬((alookup c.aliases pn).getD []).length = 1 := by omega
        simp [paramsResolvers, hq, resolveParamType, hstrict, hex, hni, hlen]
      · cases hpt : resolveParamType c tname q ann with
        | error e => exact ⟨e, by simp [paramsResolvers, hq, hpt]⟩
        | ok opt =>
          cases opt with
          | none =>
            exact ⟨.cannotResolveParameter q tname,
              by simp [paramsResolvers, hq, hpt]⟩
          | some t =>
            by_cases hmap : (alookup c.map t).isNone
            · exact ⟨.cannotResolveParameter q tname,
                by simp [paramsResolvers, hq, hpt, hmap]⟩
            · cases hgr : getResolverFn c resolveFn t st with
              | error e => exact ⟨e, by simp [paramsResolvers, hq, hpt, hmap, hgr]⟩
              | ok pr =>
                obtain ⟨p, st'⟩ := pr
                obtain ⟨e, he⟩ := ih st' htl
                exact ⟨e, by simp [paramsResolvers, hq, hpt, hmap, hgr, he]⟩

theorem resolveResolver_error_of_params_error (c : Container) (cls : ClassDef)
    (ls : LifeStyle) (pn : String)
    (hinit : cls.hasCustomInit = true)
    (hskip : pn ∉ skipParamNames)
    (hmem : (pn, Ann.empty) ∈ cls.initParams)
    (hbad : ∀ (resolveFn : Resolver → BuildSt → Except Err (Producer × BuildSt))
      (st : BuildSt),
      ∃ e, paramsResolvers c resolveFn cls.name cls.initParams st = .error e) :
    ∀ (fuel : Nat) (st : BuildSt),
      ∃ e, resolveResolver c fuel (.dynamic cls ls) st = .error e := by
  intro fuel st
  cases fuel with
  | zero => exact ⟨_, rfl⟩
  | succ f =>
    have hpnself : pn ≠ "self" := by
      intro h
      exact hskip (h ▸ by simp [skipParamNames])
    have hne :
        (cls.initParams.length = 1 &&
          ((cls.initParams.headD ("", .empty)).1 == "self")) = false := by
      cases hp : cls.initParams with
      | nil => rw [hp] at hmem; simp at hmem
      | cons a tl =>
        cases htl : tl with
        | nil =>
          rw [hp, htl] at hmem
          simp at hmem
          have ha1 : a.1 = pn := by rw [← hmem]
          simp [ha1, hpnself]
        | cons b tl2 => simp
    obtain ⟨e, he⟩ :=
      hbad (fun r s => resolveResolver c f r s)
        { st with chain := st.chain ++ [cls.name] }
    have hbi :
        resolveByInit c (fun r s => resolveResolver c f r s) cls ls
          { st with chain := st.chain ++ [cls.name] } = .error e := by
      simp only [resolveByInit]
      rw [if_neg (fun h => Bool.false_ne_true (hne ▸ h))]
      simp only [he]
    obtain ⟨e', he'⟩ :=
      convertRecursionError_on_error (α := Producer × BuildSt)
        ((st.chain ++ [cls.name]).headD "") cls.name e
    refine ⟨e', ?_⟩
    simp only [resolveResolver, hinit, if_true, hbi, he']

/-- C7: in strict mode, (i) every `add_alias` call and (ii) every
`set_alias` call raises `InvalidOperationInStrictMode` immediately,
regardless of the arguments; (iii) building any registry containing a
dynamic registration whose constructor has a parameter without a
declared type cannot succeed (the pass raises before completing), and
(iv) when that registration is processed (stated for it being first in
the registry, with the untyped parameter first after `self`, on any
positive stack budget) the raised error is exactly
`CannotResolveParameterException(param, type)`. -/
theorem strict_mode_enforcement :
    (∀ (c : Container) (n t : String), c.strict = true →
      addAlias c n t = .error .invalidOperationInStrictMode) ∧
    (∀ (c : Container) (n t : String) (ov : Bool), c.strict = true →
      setAlias c n t ov = .error .invalidOperationInStrictMode) ∧
    (∀ (c : Container) (k : String) (cls : ClassDef) (ls : LifeStyle)
       (pn : String) (fuel : Nat),
      c.strict = true → (k, .dynamic cls ls) ∈ c.map →
      cls.hasCustomInit = true → (pn, Ann.empty) ∈ cls.initParams →
      pn ∉ skipParamNames →
      ∃ e, build c fuel = .error e) ∧
    (∀ (c : Container) (k : String) (cls : ClassDef) (ls : LifeStyle)
       (pn : String) (a0 : Ann) (ps : List (String × Ann))
       (rest : List (String × Resolver)) (fuel : Nat),
      c.strict = true → c.map = (k, .dynamic cls ls) :: rest →
      cls.hasCustomInit = true →
      cls.initParams = ("self", a0) :: (pn, Ann.empty) :: ps →
      pn ∉ skipParamNames → 1 ≤ fuel →
      build c fuel = .error (.cannotResolveParameter pn cls.name)) := by
  refine ⟨?_, ?_, ?_, ?_⟩
  · intro c n t h
    simp [addAlias, h]
  · intro c n t ov h
    simp [setAlias, h]
  · intro c k cls ls pn fuel hstrict hmem hinit hpmem hskip
    exact build_error_of_mem c fuel k (.dynamic cls ls) hmem
      (resolveResolver_error_of_params_error c cls ls pn hinit hskip hpmem
        (fun resolveFn st =>
          paramsResolvers_strict_untyped_error c hstrict cls.name pn hskip
            resolveFn cls.initParams st hpmem) fuel)
  · intro c k cls ls pn a0 ps rest fuel hstrict hmap hinit hparams hskip hfuel
    cases fuel with
    | zero => exact absurd hfuel (by simp)
    | succ f =>
      have hself : "self" ∈ skipParamNames := by simp [skipParamNames]
      have hlen : ¬cls.initParams.length = 1 := by
        rw [hparams]; simp
      simp [build, buildLoop, alookup, hmap, chainCleared, resolveResolver, hinit,
        resolveByInit, hlen, hparams, paramsResolvers, hself, hskip,
        resolveParamType, hstrict, convertRecursionError]

/-- Witness for C7: a strict container refuses `add_alias` / `set_alias`,
and building a strict registry whose only class `X` has the untyped
constructor parameter `y` fails with
`CannotResolveParameterException("y", X)`. -/
theorem strict_mode_enforcement_witness :
    addAlias (Container.mk [] [] [] true) "n" "T"
        = .error .invalidOperationInStrictMode ∧
    setAlias (Container.mk [] [] [] true) "n" "T" true
        = .error .invalidOperationInStrictMode ∧
    build (Container.mk
        [("X", .dynamic ⟨"X", true, [("self", .empty), ("y", .empty)], [], false⟩
          .TRANSIENT)] [] [] true) 10
      = .error (.cannotResolveParameter "y" "X") :=
  ⟨strict_mode_enforcement.1 _ "n" "T" rfl,
    strict_mode_enforcement.2.1 _ "n" "T" true rfl,
    strict_mode_enforcement.2.2.2 _ "X"
      ⟨"X", true, [("self", .empty), ("y", .empty)], [], false⟩ .TRANSIENT
      "y" .empty [] [] 10 rfl rfl rfl rfl (by decide) (by decide)⟩

/-- C4: when a dependency parameter has no declared type and (with no
exact alias for its name) its name maps to more than one candidate key
in the inferred-alias table, resolution fails with a raised error — the
source's `assert len(aliases) == 1, "Configured aliases cannot be
ambiguous"` — rather than silently picking a candidate: (i) building any
registry containing a dynamic registration consuming such a parameter
cannot succeed, and (ii) when that registration is processed (stated for
it being first in the registry, with the ambiguous parameter first after
`self`, on any positive stack budget) the raised error is exactly the
ambiguity assertion. -/
theorem ambiguous_inferred_alias_fails :
    (∀ (c : Container) (k : String) (cls : ClassDef) (ls : LifeStyle)
       (pn : String) (fuel : Nat),
      c.strict = false → (k, .dynamic cls ls) ∈ c.map →
      cls.hasCustomInit = true → (pn, Ann.empty) ∈ cls.initParams →
      pn ∉ skipParamNames → alookup c.exactAliases pn = none →
      2 ≤ ((alookup c.aliases pn).getD []).length →
      ∃ e, build c fuel = .error e) ∧
    (∀ (c : Container) (k : String) (cls : ClassDef) (ls : LifeStyle)
       (pn : String) (a0 : Ann) (ps : List (String × Ann))
       (rest : List (String × Resolver)) (t1 t2 : String) (ts : List String)
       (fuel : Nat),
      c.strict = false → c.map = (k, .dynamic cls ls) :: rest →
      cls.hasCustomInit = true →
      cls.initParams = ("self", a0) :: (pn, Ann.empty) :: ps →
      pn ∉ skipParamNames → alookup c.exactAliases pn = none →
      alookup c.aliases pn = some (t1 :: t2 :: ts) → 1 ≤ fuel →
      build c fuel
        = .error (.assertionError "Configured aliases cannot be ambiguous")) := by
  constructor
  · intro c k cls ls pn fuel hstrict hmem hinit hpmem hskip hex hal
    exact build_error_of_mem c fuel k (.dynamic cls ls) hmem
      (resolveResolver_error_of_params_error c cls ls pn hinit hskip hpmem
        (fun resolveFn st =>
          paramsResolvers_ambiguous_alias_error c hstrict cls.name pn hskip hex
            hal resolveFn cls.initParams st hpmem) fuel)
  · intro c k cls ls pn a0 ps rest t1 t2 ts fuel hstrict hmap hinit hparams hskip
      hex hal hfuel
    cases fuel with
    | zero => exact absurd hfuel (by simp)
    | succ f =>
      have hself : "self" ∈ skipParamNames := by simp [skipParamNames]
      have hlen : ¬cls.initParams.length = 1 := by
        rw [hparams]; simp
      simp [build, buildLoop, alookup, hmap, chainCleared, resolveResolver, hinit,
        resolveByInit, hlen, hparams, paramsResolvers, hself, hskip,
        resolveParamType, hstrict, hex, hal, convertRecursionError]

/-- Witness for C4: two classes named `AB` and `Ab` share the lowercase
inferred alias `ab` (exactly as `Container._bind` populates it); building
a registry whose class `C` consumes the untyped parameter `ab` fails
with the ambiguity assertion. -/
theorem ambiguous_inferred_alias_fails_witness :
    build (Container.mk
        [("C", .dynamic ⟨"C", true, [("self", .empty), ("ab", .empty)], [], false⟩
            .TRANSIENT),
          ("AB", .dynamic ⟨"AB", true, [("self", .empty)], [], false⟩ .TRANSIENT),
          ("Ab", .dynamic ⟨"Ab", true, [("self", .empty)], [], false⟩ .TRANSIENT)]
        [("AB", ["AB"]), ("ab", ["AB", "Ab"]), ("Ab", ["Ab"]), ("C", ["C"]),
          ("c", ["C"])]
        [] false) 10
      = .error (.assertionError "Configured aliases cannot be ambiguous") :=
  ambiguous_inferred_alias_fails.2 _ "C"
    ⟨"C", true, [("self", .empty), ("ab", .empty)], [], false⟩ .TRANSIENT
    "ab" .empty [] _ "AB" "Ab" [] 10 rfl rfl rfl rfl (by decide) rfl rfl
    (by decide)

theorem cyc_resolver_errors (lsA lsB : LifeStyle) :
    ∀ n : Nat, 1 ≤ n → ∀ st : BuildSt,
      alookup st.resolved "A" = none → alookup st.resolved "B" = none →
      (∃ u v, resolveResolver (cycCont lsA lsB) n (.dynamic cycClsA lsA) st
        = .error (.circularDependency u v)) ∧
      (∃ u v, resolveResolver (cycCont lsA lsB) n (.dynamic cycClsB lsB) st
        = .error (.circularDependency u v)) := by
  intro n
  induction n with
  | zero => intro h; exact absurd h (by simp)
  | succ m ih =>
    intro _ st hA hB
    by_cases hm : m = 0
    · subst hm
      constructor
      · refine ⟨(st.chain ++ ["A"]).headD "", "A", ?_⟩
        simp [resolveResolver, cycCont, cycClsA, cycClsB, ClassDef.ref,
          resolveByInit, paramsResolvers, resolveParamType, skipParamNames,
          alookup, getResolverFn, hB, convertRecursionError]
      · refine ⟨(st.chain ++ ["B"]).headD "", "B", ?_⟩
        simp [resolveResolver, cycCont, cycClsA, cycClsB, ClassDef.ref,
          resolveByInit, paramsResolvers, resolveParamType, skipParamNames,
          alookup, getResolverFn, hA, convertRecursionError]
    · have hm1 : 1 ≤ m := Nat.one_le_iff_ne_zero.mpr hm
      constructor
      · obtain ⟨u, v, hE⟩ :=
          (ih hm1 { st with chain := st.chain ++ ["A"] } hA hB).2
        simp only [cycCont, cycClsA, cycClsB] at hE
        refine ⟨u, v, ?_⟩
        simp [resolveResolver, cycCont, cycClsA, cycClsB, ClassDef.ref,
          resolveByInit, paramsResolvers, resolveParamType, skipParamNames,
          alookup, getResolverFn, hB, hE, convertRecursionError]
      · obtain ⟨u, v, hE⟩ :=
          (ih hm1 { st with chain := st.chain ++ ["B"] } hA hB).1
        simp only [cycCont, cycClsA, cycClsB] at hE
        refine ⟨u, v, ?_⟩
        simp [resolveResolver, cycCont, cycClsA, cycClsB, ClassDef.ref,
          resolveByInit, paramsResolvers, resolveParamType, skipParamNames,
          alookup, getResolverFn, hA, hE, convertRecursionError]

theorem cyc3_resolver_errors (lsA lsB lsC : LifeStyle) :
    ∀ n : Nat, 1 ≤ n → ∀ st : BuildSt,
      alookup st.resolved "A" = none → alookup st.resolved "B" = none →
      alookup st.resolved "C" = none →
      (∃ u v, resolveResolver (cyc3Cont lsA lsB lsC) n (.dynamic cycClsA lsA) st
        = .error (.circularDependency u v)) ∧
      (∃ u v, resolveResolver (cyc3Cont lsA lsB lsC) n (.dynamic cyc3ClsB lsB) st
        = .error (.circularDependency u v)) ∧
      (∃ u v, resolveResolver (cyc3Cont lsA lsB lsC) n (.dynamic cyc3ClsC lsC) st
        = .error (.circularDependency u v)) := by
  intro n
  induction n with
  | zero => intro h; exact absurd h (by simp)
  | succ m ih =>
    intro _ st hA hB hC
    by_cases hm : m = 0
    · subst hm
      refine ⟨⟨(st.chain ++ ["A"]).headD "", "A", ?_⟩,
        ⟨(st.chain ++ ["B"]).headD "", "B", ?_⟩,
        ⟨(st.chain ++ ["C"]).headD "", "C", ?_⟩⟩
      · simp [resolveResolver, cyc3Cont, cycClsA, cyc3ClsB, cyc3ClsC,
          ClassDef.ref, resolveByInit, paramsResolvers, resolveParamType,
          skipParamNames, alookup, getResolverFn, hB, convertRecursionError]
      · simp [resolveResolver, cyc3Cont, cycClsA, cyc3ClsB, cyc3ClsC,
          ClassDef.ref, resolveByInit, paramsResolvers, resolveParamType,
          skipParamNames, alookup, getResolverFn, hC, convertRecursionError]
      · simp [resolveResolver, cyc3Cont, cycClsA, cyc3ClsB, cyc3ClsC,
          ClassDef.ref, resolveByInit, paramsResolvers, resolveParamType,
          skipParamNames, alookup, getResolverFn, hA, convertRecursionError]
    · have hm1 : 1 ≤ m := Nat.one_le_iff_ne_zero.mpr hm
      refine ⟨?_, ?_, ?_⟩
      · obtain ⟨u, v, hE⟩ :=
          (ih hm1 { st with chain := st.chain ++ ["A"] } hA hB hC).2.1
        simp only [cyc3Cont, cycClsA, cyc3ClsB, cyc3ClsC] at hE
        refine ⟨u, v, ?_⟩
        simp [resolveResolver, cyc3Cont, cycClsA, cyc3ClsB, cyc3ClsC,
          ClassDef.ref, resolveByInit, paramsResolvers, resolveParamType,
          skipParamNames, alookup, getResolverFn, hB, hE, convertRecursionError]
      · obtain ⟨u, v, hE⟩ :=
          (ih hm1 { st with chain := st.chain ++ ["B"] } hA hB hC).2.2
        simp only [cyc3Cont, cycClsA, cyc3ClsB, cyc3ClsC] at hE
        refine ⟨u, v, ?_⟩
        simp [resolveResolver, cyc3Cont, cycClsA, cyc3ClsB, cyc3ClsC,
          ClassDef.ref, resolveByInit, paramsResolvers, resolveParamType,
          skipParamNames, alookup, getResolverFn, hC, hE, convertRecursionError]
      · obtain ⟨u, v, hE⟩ :=
          (ih hm1 { st with chain := st.chain ++ ["C"] } hA hB hC).1
        simp only [cyc3Cont, cycClsA, cyc3ClsB, cyc3ClsC] at hE
        refine ⟨u, v, ?_⟩
        simp [resolveResolver, cyc3Cont, cycClsA, cyc3ClsB, cyc3ClsC,
          ClassDef.ref, resolveByInit, paramsResolvers, resolveParamType,
          skipParamNames, alookup, getResolverFn, hA, hE, convertRecursionError]

/-- C3: a cyclic dynamic registration makes `build()` terminate with
`CircularDependencyException` instead of recursing indefinitely, both
for the direct two-type cycle `A -> B -> A` and the transitive
three-type cycle `A -> B -> C -> A` (with any lifetimes): at every
positive stack budget the recursion exhausts the stack, and
`DynamicResolver.__call__`'s `except RecursionError` handler converts
the fault into `CircularDependencyException(chain[0], current)`. -/
theorem cyclic_registration_raises_circular_dependency :
    (∀ (lsA lsB : LifeStyle) (fuel : Nat), 1 ≤ fuel →
      ∃ u v, build (cycCont lsA lsB) fuel
        = .error (.circularDependency u v)) ∧
    (∀ (lsA lsB lsC : LifeStyle) (fuel : Nat), 1 ≤ fuel →
      ∃ u v, build (cyc3Cont lsA lsB lsC) fuel
        = .error (.circularDependency u v)) := by
  constructor
  · intro lsA lsB fuel h
    obtain ⟨u, v, hE⟩ := (cyc_resolver_errors lsA lsB fuel h ⟨[], [], 0⟩ rfl rfl).1
    simp only [cycCont] at hE
    refine ⟨u, v, ?_⟩
    simp [build, buildLoop, cycCont, alookup, chainCleared, hE]
  · intro lsA lsB lsC fuel h
    obtain ⟨u, v, hE⟩ :=
      (cyc3_resolver_errors lsA lsB lsC fuel h ⟨[], [], 0⟩ rfl rfl rfl).1
    simp only [cyc3Cont] at hE
    refine ⟨u, v, ?_⟩
    simp [build, buildLoop, cyc3Cont, alookup, chainCleared, hE]

/-- Witness for C3: at stack budget 5 (transient lifetimes), both the
two-type and the three-type cyclic registries fail to build with
`CircularDependencyException`. -/
theorem cyclic_registration_raises_circular_dependency_witness :
    (1 ≤ 5 ∧
      ∃ u v, build (cycCont .TRANSIENT .TRANSIENT) 5
        = .error (.circularDependency u v)) ∧
    (∃ u v, build (cyc3Cont .TRANSIENT .TRANSIENT .TRANSIENT) 5
      = .error (.circularDependency u v)) :=
  ⟨⟨by decide,
    cyclic_registration_raises_circular_dependency.1 .TRANSIENT .TRANSIENT 5
      (by decide)⟩,
    cyclic_registration_raises_circular_dependency.2 .TRANSIENT .TRANSIENT
      .TRANSIENT 5 (by decide)⟩

end Rodi
